import Mathlib

/-!
Verification of the match-resolution engine of the `match3-miniapp` repository.

The definitions below are a shallow embedding of the TypeScript sources:
  * `GameLogic` (packages/client/src/game/utils/GameLogic.ts and the extended
    server-side copy of the same class): grid creation, match detection,
    gravity, scoring, special tiles, shuffling;
  * `GameScene` (packages/client/src/game/scenes/GameScene.ts): the parts of
    `checkForMatches`, `handleSpecialTileSwap` and `getAllTilesOfType` that
    decide special-tile creation and rainbow activation;
  * `AchievementManager`: milestone tracking (`updateStats`/`checkAchievement`).

Modelling conventions:
  * JS numbers used as grid coordinates are embedded as `Int` (offsets such as
    `dx = -1` and `spawnY = -1 - k` are genuinely negative in the source);
    loop counters and lengths are `Nat`.
  * JS arithmetic in `calculateScore` (`basePoints * length * multiplier *
    Math.pow(1.5, combo)` followed by `Math.floor`) is embedded exactly: the
    product is the dyadic rational `basePoints * length * (2*multiplier) * 3^c
    / 2^(c+1)`, so `Math.floor` of it is a natural division (see
    `baseMatchPoints`); binary64 computes these products exactly at the
    magnitudes the claims speak about, so the integer embedding is faithful.
  * `Math.random()` draws are embedded as an injected stream of naturals
    (`RNG := List Nat`, exhausted entries read as `0`); the source pattern
    `Math.floor(Math.random() * n)` becomes `draw % n`, which reaches exactly
    the indices `0 .. n-1` the source can produce.
  * Tile `id` strings (built from `Date.now()` and `Math.random()`) and the
    `unlockedAt : Date` timestamp are dropped: no embedded function reads them.
  * Keys of the JS `Set<string>` used by `findAllMatches` are decoded: the key
    `"x,y"` of one position becomes the one-element list `[p]`, and the key
    `tiles.map(p => p.x + "," + p.y).join("|")` of a whole match becomes the
    list `tiles` itself.  The decoding is injective (a single-position key
    contains no bar, a joined key of a length-three-or-more match does), so
    string equality of keys coincides with list equality.
  * The JS objects `scoreConfig.basePoints`, `scoreConfig.matchMultipliers` and
    `SPECIAL_BONUSES` are key-value maps indexed by strings; they are embedded
    as `Option`-valued lookups, with `Option.getD` playing the role of the
    source's `|| default` fallback (every stored value is a truthy number).
    `SPECIAL_BONUSES` keeps its string keys because the source looks it up with
    the string value of `match.special`, and the mismatch between the stored
    key `rocket` and the enum values `rocket_h` / `rocket_v` is load-bearing.
-/

/-- `TileType` enum from packages/client/src/types/game.ts. -/
inductive TileType where
  | empty | red | blue | green | yellow | purple | orange
  | sbomb | srocket | srainbow
deriving DecidableEq, Repr

/-- `SpecialTileEffect` enum from packages/client/src/types/game.ts. -/
inductive SpecialTileEffect where
  | NONE | BOMB | ROCKET_H | ROCKET_V | RAINBOW
deriving DecidableEq, Repr

/-- The string value of a `SpecialTileEffect` member (the enum is
string-valued in the source; `SPECIAL_BONUSES` is looked up with it). -/
def specialEffectKey : SpecialTileEffect → String
  | .NONE => "none"
  | .BOMB => "bomb"
  | .ROCKET_H => "rocket_h"
  | .ROCKET_V => "rocket_v"
  | .RAINBOW => "rainbow"

/-- `direction` field of `MatchResult` (a four-way string union in the source). -/
inductive MatchDirection where
  | horizontal | vertical | lshape | tshape
deriving DecidableEq, Repr

/-- `GridPosition` interface: an `(x, y)` pair of JS numbers. -/
structure GridPosition where
  x : Int
  y : Int
deriving DecidableEq, Repr

/-- `GameTile` interface (the `id` string is dropped, see the module header). -/
structure GameTile where
  type : TileType
  special : Option SpecialTileEffect
  x : Int
  y : Int
  falling : Bool
  matched : Bool
deriving DecidableEq, Repr

/-- `MatchResult` interface.  The `score` field of the TS interface is never
written or read by the embedded functions and is dropped.  `special` is set by
`GameScene.checkForMatches` after detection. -/
structure MatchResult where
  tiles : List GridPosition
  type : TileType
  direction : MatchDirection
  length : Nat
  special : Option SpecialTileEffect
deriving DecidableEq, Repr

/-- One entry of `specialTilesToCreate` in `GameScene.checkForMatches`. -/
structure SpecialCreation where
  position : GridPosition
  special : SpecialTileEffect
  tileType : TileType
deriving DecidableEq, Repr

/-- `'fall' | 'spawn'` animation kind from `applyGravity`. -/
inductive AnimKind where
  | fall | spawn
deriving DecidableEq, Repr

/-- `TileAnimation` record pushed by `applyGravity`.  The source pushes the
animation object before mutating the aliased tile; since the alias makes the
final object state visible through the animation, the embedded record stores
the post-mutation tile. -/
structure TileAnimation where
  tile : GameTile
  fromX : Int
  fromY : Int
  toX : Int
  toY : Int
  duration : Int
  kind : AnimKind
deriving DecidableEq, Repr

/-- The injected `Math.random()` stream: each entry is one draw, exhausted
entries read as `0`. -/
abbrev RNG := List Nat

/-- The fields of the `GameLogic` class fixed by its constructor. -/
structure GameCfg where
  GRID_WIDTH : Nat
  GRID_HEIGHT : Nat
  TILE_TYPES : List TileType
deriving DecidableEq, Repr

/-- Constructor filter on `config.tileTypes`: drops `EMPTY` and the types whose
string value starts with `bomb` / `rocket` / `rainbow` (exactly the three
`SPECIAL_*` members). -/
def filterTileTypes (palette : List TileType) : List TileType :=
  palette.filter fun t =>
    t ≠ TileType.empty ∧ t ≠ TileType.sbomb ∧ t ≠ TileType.srocket ∧ t ≠ TileType.srainbow

/-- `new GameLogic(config)`. -/
def mkGameCfg (w h : Nat) (palette : List TileType) : GameCfg :=
  ⟨w, h, filterTileTypes palette⟩

/-- The grid `GameTile[][]`, indexed `grid[y][x]`. -/
abbrev Grid := List (List GameTile)

/-- Placeholder for the `undefined` a JS out-of-bounds index would yield; the
embedded loops only index in bounds, so it is never observed there. -/
def undefinedTile : GameTile :=
  ⟨TileType.empty, Option.none, 0, 0, false, false⟩

/-- `grid[y][x]` for loop indices already known to be in bounds. -/
def getTileN (g : Grid) (x y : Nat) : GameTile :=
  (g.getD y []).getD x undefinedTile

/-- `grid[position.y]?.[position.x]` — `Option.none` models `undefined`. -/
def getTileAt (g : Grid) (p : GridPosition) : Option GameTile :=
  if p.x < 0 ∨ p.y < 0 then Option.none
  else (g.get? p.y.toNat).bind fun row => row.get? p.x.toNat

/-- `grid[y][x] = tile` (no-op out of bounds; the source only writes in-bounds
positions). -/
def setTileN (g : Grid) (x y : Nat) (t : GameTile) : Grid :=
  g.set y ((g.getD y []).set x t)

/-- `GameLogic.isValidPosition`. -/
def isValidPosition (cfg : GameCfg) (p : GridPosition) : Bool :=
  0 ≤ p.x ∧ p.x < (cfg.GRID_WIDTH : Int) ∧ 0 ≤ p.y ∧ p.y < (cfg.GRID_HEIGHT : Int)

/-- `GameLogic.createRandomTile`: one stream draw selects
`TILE_TYPES[Math.floor(Math.random() * TILE_TYPES.length)]`. -/
def createRandomTile (cfg : GameCfg) (x y : Int) (rng : RNG) : GameTile × RNG :=
  let r := rng.headD 0
  let ty := cfg.TILE_TYPES.getD (r % cfg.TILE_TYPES.length) TileType.empty
  (⟨ty, Option.none, x, y, false, false⟩, rng.tail)

/-- The rightward scan inside `GameLogic.findHorizontalMatch`: collect
positions `x, x+1, …` while in bounds and of the start tile's type.  Fuel is
the remaining width, so the recursion mirrors `for (x; x < GRID_WIDTH; x++)`. -/
def collectRight (cfg : GameCfg) (g : Grid) (ty : TileType) (y : Nat) :
    Nat → Nat → List GridPosition
  | _, 0 => []
  | x, fuel + 1 =>
    if x < cfg.GRID_WIDTH ∧ (getTileN g x y).type = ty then
      ⟨(x : Int), (y : Int)⟩ :: collectRight cfg g ty y (x + 1) fuel
    else []

/-- The downward scan inside `GameLogic.findVerticalMatch`. -/
def collectDown (cfg : GameCfg) (g : Grid) (ty : TileType) (x : Nat) :
    Nat → Nat → List GridPosition
  | _, 0 => []
  | y, fuel + 1 =>
    if y < cfg.GRID_HEIGHT ∧ (getTileN g x y).type = ty then
      ⟨(x : Int), (y : Int)⟩ :: collectDown cfg g ty x (y + 1) fuel
    else []

/-- `GameLogic.findHorizontalMatch`. -/
def findHorizontalMatch (cfg : GameCfg) (g : Grid) (startX y : Nat) :
    Option MatchResult :=
  let startTile := getTileN g startX y
  if startTile.type = TileType.empty then Option.none
  else
    let matchTiles :=
      ⟨(startX : Int), (y : Int)⟩ ::
        collectRight cfg g startTile.type y (startX + 1) cfg.GRID_WIDTH
    if 3 ≤ matchTiles.length then
      some ⟨matchTiles, startTile.type, MatchDirection.horizontal,
            matchTiles.length, Option.none⟩
    else Option.none

/-- `GameLogic.findVerticalMatch`. -/
def findVerticalMatch (cfg : GameCfg) (g : Grid) (x startY : Nat) :
    Option MatchResult :=
  let startTile := getTileN g x startY
  if startTile.type = TileType.empty then Option.none
  else
    let matchTiles :=
      ⟨(x : Int), (startY : Int)⟩ ::
        collectDown cfg g startTile.type x (startY + 1) cfg.GRID_HEIGHT
    if 3 ≤ matchTiles.length then
      some ⟨matchTiles, startTile.type, MatchDirection.vertical,
            matchTiles.length, Option.none⟩
    else Option.none

/-- The accumulator of `findAllMatches`: the matches found so far and the
decoded contents of the `processedPositions : Set<string>` (see the module
header for the key decoding). -/
abbrev MatchAcc := List MatchResult × List (List GridPosition)

/-- The body shared by both scan loops of `GameLogic.findAllMatches`:
```
if (match && match.length >= this.MIN_MATCH_LENGTH) {
  const posKey = match.tiles.map(p => p.x + "," + p.y).join("|");
  if (!processedPositions.has(posKey)) {
    matches.push(match);
    match.tiles.forEach(p => processedPositions.add(p.x + "," + p.y));
  }
}
```
The membership test compares the joined key of the whole match against a set
that only ever receives single-position keys. -/
def recordMatch (acc : MatchAcc) (m? : Option MatchResult) : MatchAcc :=
  match m? with
  | Option.none => acc
  | some m =>
    if 3 ≤ m.length then
      if m.tiles ∈ acc.2 then acc
      else (acc.1 ++ [m], acc.2 ++ m.tiles.map fun p => [p])
    else acc

/-- `GameLogic.findAllMatches`: horizontal scan (`y` outer over the height,
`x` inner over `GRID_WIDTH - 2` starts), then vertical scan (`x` outer,
`y` inner over `GRID_HEIGHT - 2` starts). -/
def findAllMatches (cfg : GameCfg) (g : Grid) : List MatchResult :=
  let afterH :=
    (List.range cfg.GRID_HEIGHT).foldl
      (fun acc y =>
        (List.range (cfg.GRID_WIDTH - 2)).foldl
          (fun acc x => recordMatch acc (findHorizontalMatch cfg g x y)) acc)
      (([], []) : MatchAcc)
  let afterV :=
    (List.range cfg.GRID_WIDTH).foldl
      (fun acc x =>
        (List.range (cfg.GRID_HEIGHT - 2)).foldl
          (fun acc y => recordMatch acc (findVerticalMatch cfg g x y)) acc)
      afterH
  afterV.1

/-- One pass of the body of the `while` loop in
`GameLogic.removeInitialMatches`: every position of every found match is
replaced by a fresh random tile (stream draws consumed in iteration order). -/
def replaceMatches (cfg : GameCfg) (g : Grid) (rng : RNG)
    (ms : List MatchResult) : Grid × RNG :=
  ms.foldl
    (fun (s : Grid × RNG) m =>
      m.tiles.foldl
        (fun (s : Grid × RNG) p =>
          let (t, rng') := createRandomTile cfg p.x p.y s.2
          (setTileN s.1 p.x.toNat p.y.toNat t, rng'))
        s)
    (g, rng)

/-- `GameLogic.removeInitialMatches`: up to `fuel` (source: 50) repair
attempts; each attempt that still sees matches re-rolls every matched
position. -/
def removeInitialMatches (cfg : GameCfg) : Nat → Grid → RNG → Grid × RNG
  | 0, g, rng => (g, rng)
  | fuel + 1, g, rng =>
    let ms := findAllMatches cfg g
    if ms.isEmpty then (g, rng)
    else
      let (g', rng') := replaceMatches cfg g rng ms
      removeInitialMatches cfg fuel g' rng'

/-- The grid of fresh random tiles built by the loops at the start of
`GameLogic.initializeGrid` (row by row, left to right). -/
def buildRawGrid (cfg : GameCfg) (rng : RNG) : Grid × RNG :=
  (List.range cfg.GRID_HEIGHT).foldl
    (fun (s : Grid × RNG) y =>
      let (row, rng') :=
        (List.range cfg.GRID_WIDTH).foldl
          (fun (r : List GameTile × RNG) x =>
            let (t, rng'') := createRandomTile cfg x y r.2
            (r.1 ++ [t], rng''))
          ([], s.2)
      (s.1 ++ [row], rng'))
    ([], rng)

/-- `GameLogic.initializeGrid`: populate randomly, then run the 50-attempt
`removeInitialMatches` repair. -/
def initializeGrid (cfg : GameCfg) (rng : RNG) : Grid :=
  (removeInitialMatches cfg 50 (buildRawGrid cfg rng).1 (buildRawGrid cfg rng).2).1

/-- `GameLogic.getColumn`. -/
def getColumn (g : Grid) (x : Nat) : List GameTile :=
  g.map fun row => row.getD x undefinedTile

/-- The inner `for (y = GRID_HEIGHT - 1; y >= 0; y--)` loop of
`GameLogic.applyGravity` for one column.  `tileIndex` starts at `0`
(`y = GRID_HEIGHT - 1`) and the result list is in iteration order, i.e.
bottom row first. -/
def gravityFill (cfg : GameCfg) (x : Nat) (ne : List GameTile) :
    Nat → Nat → RNG → List GameTile × List TileAnimation × RNG
  | _, 0, rng => ([], [], rng)
  | tileIndex, fuel + 1, rng =>
    let y : Int := (cfg.GRID_HEIGHT : Int) - 1 - tileIndex
    if tileIndex < ne.length then
      let tile := ne.getD tileIndex undefinedTile
      let oldY := tile.y
      if oldY ≠ y then
        let tile' := { tile with y := y, falling := true }
        let anim : TileAnimation :=
          ⟨tile', x, oldY, x, y, 300 + (y - oldY) * 50, AnimKind.fall⟩
        let (rest, anims, rng') := gravityFill cfg x ne (tileIndex + 1) fuel rng
        (tile' :: rest, anim :: anims, rng')
      else
        let (rest, anims, rng') := gravityFill cfg x ne (tileIndex + 1) fuel rng
        (tile :: rest, anims, rng')
    else
      let spawnY : Int := -1 - ((tileIndex : Int) - ne.length)
      let (newTile, rng') := createRandomTile cfg x y rng
      let newTile' := { newTile with falling := true }
      let anim : TileAnimation :=
        ⟨newTile', x, spawnY, x, y, 400 + (y - spawnY) * 50, AnimKind.spawn⟩
      let (rest, anims, rng'') := gravityFill cfg x ne (tileIndex + 1) fuel rng'
      (newTile' :: rest, anim :: anims, rng'')

/-- Result record of `GameLogic.applyGravity`. -/
structure GravityResult where
  grid : Grid
  animations : List TileAnimation
deriving DecidableEq, Repr

/-- `GameLogic.applyGravity`: per column (left to right), keep the non-empty
tiles of the column and fill from the bottom, spawning fresh tiles above; the
whole grid is reassembled from the per-column results. -/
def applyGravity (cfg : GameCfg) (g : Grid) (rng : RNG) : GravityResult × RNG :=
  let step :=
    (List.range cfg.GRID_WIDTH).foldl
      (fun (s : List (List GameTile) × List TileAnimation × RNG) x =>
        let column := getColumn g x
        let nonEmptyTiles := column.filter fun t => t.type ≠ TileType.empty
        let (bottomUp, anims, rng') :=
          gravityFill cfg x nonEmptyTiles 0 cfg.GRID_HEIGHT s.2.2
        (s.1 ++ [bottomUp.reverse], s.2.1 ++ anims, rng'))
      ([], [], rng)
  let cols := step.1
  let grid' :=
    (List.range cfg.GRID_HEIGHT).map fun y =>
      (List.range cfg.GRID_WIDTH).map fun x => (cols.getD x []).getD y undefinedTile
  (⟨grid', step.2.1⟩, step.2.2)

/-- `scoreConfig.basePoints` (server copy of `GameLogic`): every listed color
maps to `10`; lookup misses fall back through `|| 10`. -/
def basePointsLookup : TileType → Option Nat
  | .red => some 10
  | .blue => some 10
  | .green => some 10
  | .yellow => some 10
  | .purple => some 10
  | .orange => some 10
  | _ => Option.none

/-- `scoreConfig.matchMultipliers` (server copy): `{3:1, 4:2.5, 5:5, 6:10,
7:20}`, stored here as twice their value (`{3:2, 4:5, 5:10, 6:20, 7:40}`) so
the table stays integral; lookup misses fall back through `|| 1` (doubled:
`2`).  See `baseMatchPoints` for why the doubling is exact. -/
def matchMultipliersX2 : Nat → Option Nat
  | 3 => some 2
  | 4 => some 5
  | 5 => some 10
  | 6 => some 20
  | 7 => some 40
  | _ => Option.none

/-- `SPECIAL_BONUSES = { bomb: 200, rocket: 300, rainbow: 500 }`, looked up by
the string value of `match.special`; misses fall back through `|| 0`. -/
def SPECIAL_BONUSES (key : String) : Option Nat :=
  if key = "bomb" then some 200
  else if key = "rocket" then some 300
  else if key = "rainbow" then some 500
  else Option.none

/-- The per-match base score
`Math.floor(basePoints * match.length * multiplier * Math.pow(1.5, comboCount))`
of `GameLogic.calculateScore`.  With the multiplier stored as `multX2 / 2` and
`1.5^c = 3^c / 2^c`, the product is the dyadic rational
`basePoints * length * multX2 * 3^c / 2^(c+1)`, so its floor is the natural
division below.  Binary64 evaluates this product exactly whenever it stays
below `2^53`, which covers every magnitude the claims speak about, so the
integer embedding agrees with the JS float computation there. -/
def baseMatchPoints (comboCount : Nat) (m : MatchResult) : Nat :=
  let basePoints := (basePointsLookup m.type).getD 10
  let multX2 := (matchMultipliersX2 m.length).getD 2
  basePoints * m.length * multX2 * 3 ^ comboCount / 2 ^ (comboCount + 1)

/-- One iteration of the `ms.forEach` loop of `GameLogic.calculateScore`:
the floored base score plus the creation bonus looked up by the string value
of `match.special` (`|| 0` on a miss). -/
def matchScoreOf (comboCount : Nat) (m : MatchResult) : Nat :=
  baseMatchPoints comboCount m +
    (match m.special with
     | Option.none => 0
     | some s => (SPECIAL_BONUSES (specialEffectKey s)).getD 0)

/-- `GameLogic.calculateScore` (server copy, the one with special bonuses):
sum the per-match scores, then add `specialActivations * 150` when there was
at least one activation. -/
def calculateScore (ms : List MatchResult) (comboCount : Nat)
    (specialActivations : Nat) : Nat :=
  let total := ms.foldl (fun acc m => acc + matchScoreOf comboCount m) 0
  if 0 < specialActivations then total + specialActivations * 150 else total

/-- `GameLogic.detectSpecialTileCreation`: `length >= 5` gives a rocket whose
direction follows the run, `length == 4` gives a bomb, both placed at
`tiles[Math.floor(tiles.length / 2)]`; everything else (including L/T
intersections, which the source comment defers to a nonexistent
`findLShapedMatches`) yields nothing. -/
def detectSpecialTileCreation (m : MatchResult) :
    Option (GridPosition × SpecialTileEffect) :=
  if 5 ≤ m.length then
    let centerPos := m.tiles.getD (m.tiles.length / 2) ⟨0, 0⟩
    some (centerPos,
      if m.direction = MatchDirection.horizontal then SpecialTileEffect.ROCKET_H
      else SpecialTileEffect.ROCKET_V)
  else if m.length = 4 then
    let centerPos := m.tiles.getD (m.tiles.length / 2) ⟨0, 0⟩
    some (centerPos, SpecialTileEffect.BOMB)
  else Option.none

/-- The `specialTilesToCreate` list accumulated by `GameScene.checkForMatches`
(lines 1264-1296): one entry per match for which detection fires, carrying the
match's own tile type. -/
def specialTilesToCreate (ms : List MatchResult) : List SpecialCreation :=
  ms.foldl
    (fun acc m =>
      match detectSpecialTileCreation m with
      | Option.none => acc
      | some (pos, sp) => acc ++ [⟨pos, sp, m.type⟩])
    []

/-- The `(dx, dy)` offsets visited by the bomb case of
`GameLogic.activateSpecialTile` (`dy` outer from `-1` to `1`, `dx` inner). -/
def bombOffsets : List (Int × Int) :=
  [(-1, -1), (0, -1), (1, -1), (-1, 0), (0, 0), (1, 0), (-1, 1), (0, 1), (1, 1)]

/-- `GameLogic.activateSpecialTile`: bomb clears the clipped 3×3 block,
rockets clear the full row / column, `RAINBOW` only returns its own position
(the scene handles the real rainbow clear), `NONE` falls through the switch. -/
def activateSpecialTile (cfg : GameCfg) (g : Grid) (position : GridPosition) :
    List GridPosition :=
  match getTileAt g position with
  | Option.none => []
  | some tile =>
    match tile.special with
    | Option.none => []
    | some eff =>
      match eff with
      | SpecialTileEffect.BOMB =>
        bombOffsets.filterMap fun d =>
          let pos : GridPosition := ⟨position.x + d.1, position.y + d.2⟩
          if isValidPosition cfg pos then some pos else Option.none
      | SpecialTileEffect.ROCKET_H =>
        (List.range cfg.GRID_WIDTH).map fun (x : Nat) => ⟨(x : Int), position.y⟩
      | SpecialTileEffect.ROCKET_V =>
        (List.range cfg.GRID_HEIGHT).map fun (y : Nat) => ⟨position.x, (y : Int)⟩
      | SpecialTileEffect.RAINBOW => [position]
      | SpecialTileEffect.NONE => []

/-- `GameScene.getAllTilesOfType`: every in-bounds position whose tile has the
given type (and the type is not `EMPTY`), `y` outer, `x` inner (the nested
push-loops of the source produce exactly this flattened list). -/
def getAllTilesOfType (cfg : GameCfg) (g : Grid) (tileType : TileType) :
    List GridPosition :=
  (List.range cfg.GRID_HEIGHT).flatMap fun y =>
    (List.range cfg.GRID_WIDTH).filterMap fun x =>
      let tile := getTileN g x y
      if tile.type = tileType ∧ tile.type ≠ TileType.empty then
        some ⟨(x : Int), (y : Int)⟩
      else Option.none

/-- The rainbow branch of `GameScene.handleSpecialTileSwap`: all positions of
the other tile's color, plus the rainbow tile's own position. -/
def rainbowAffectedPositions (cfg : GameCfg) (g : Grid)
    (specialPos : GridPosition) (otherType : TileType) : List GridPosition :=
  getAllTilesOfType cfg g otherType ++ [specialPos]

/-- One Fisher-Yates step `[array[i], array[j]] = [array[j], array[i]]` with
`j = Math.floor(Math.random() * (i + 1))`. -/
def fisherYatesStep (l : List TileType) (i : Nat) (rng : RNG) :
    List TileType × RNG :=
  let j := rng.headD 0 % (i + 1)
  let ai := l.getD i TileType.empty
  let aj := l.getD j TileType.empty
  ((l.set i aj).set j ai, rng.tail)

/-- The loop of `GameLogic.shuffleArray`, `i` descending from `n - 1` to `1`;
the argument counts the remaining values of `i`. -/
def fisherYatesLoop (l : List TileType) (rng : RNG) : Nat → List TileType × RNG
  | 0 => (l, rng)
  | i + 1 =>
    let (l', rng') := fisherYatesStep l (i + 1) rng
    fisherYatesLoop l' rng' i

/-- `GameLogic.shuffleArray` (Fisher-Yates). -/
def shuffleArray (l : List TileType) (rng : RNG) : List TileType × RNG :=
  fisherYatesLoop l rng (l.length - 1)

/-- The collection loop of `GameLogic.shuffleTileColors`: positions (with
their colors) of every tile that is not `EMPTY` and has no `special` field,
`y` outer, `x` inner. -/
def regularTiles (cfg : GameCfg) (g : Grid) : List (GridPosition × TileType) :=
  (List.range cfg.GRID_HEIGHT).foldl
    (fun acc y =>
      (List.range cfg.GRID_WIDTH).foldl
        (fun acc x =>
          let tile := getTileN g x y
          if tile.type ≠ TileType.empty ∧ tile.special = Option.none then
            acc ++ [(⟨(x : Int), (y : Int)⟩, tile.type)]
          else acc)
        acc)
    []

/-- The state of `GameLogic.shuffleTileColors` just before its final
`removeInitialMatches` call: the collected ordinary colors are shuffled and
written back to the same positions in iteration order. -/
def shuffledBeforeRepair (cfg : GameCfg) (g : Grid) (rng : RNG) : Grid × RNG :=
  let regular := regularTiles cfg g
  let (colors, rng1) := shuffleArray (regular.map Prod.snd) rng
  let g1 :=
    (List.zip regular colors).foldl
      (fun acc pc =>
        let p := pc.1.1
        let old := getTileN acc p.x.toNat p.y.toNat
        setTileN acc p.x.toNat p.y.toNat { old with type := pc.2 })
      g
  (g1, rng1)

/-- `GameLogic.shuffleTileColors`: shuffle the collected ordinary colors,
write them back to the same positions, then run the 50-attempt
`removeInitialMatches` repair on the result.  (The `colorMap` of old colors
the source also returns is not consumed by any claim and is dropped.) -/
def shuffleTileColors (cfg : GameCfg) (g : Grid) (rng : RNG) : Grid × RNG :=
  removeInitialMatches cfg 50 (shuffledBeforeRepair cfg g rng).1
    (shuffledBeforeRepair cfg g rng).2

/-- The sixteen achievement ids registered by
`AchievementManager.initializeAchievements`.  The source keys its `Map` with
these strings; since the map always holds exactly these keys, the embedding
uses a total function from this inductive of ids. -/
inductive AchId where
  | first_match | getting_started
  | combo_master_3 | combo_master_5 | combo_master_10
  | bomb_creator | rocket_master | rainbow_collector
  | high_scorer_1k | high_scorer_5k | high_scorer_10k
  | color_shifter | massive_match | chain_reaction
  | match_veteran | dedicated_player
deriving DecidableEq, Repr

/-- The mutable part of an `Achievement` record (name, description, icon and
reward are constants never read by `updateStats`/`checkAchievement` and are
dropped). -/
structure AchState where
  progress : Nat
  maxProgress : Nat
  unlocked : Bool
deriving DecidableEq, Repr

/-- Initial achievement records (`progress: 0, unlocked: false`, thresholds as
registered in `initializeAchievements`). -/
def initialAchievement : AchId → AchState
  | .first_match => ⟨0, 1, false⟩
  | .getting_started => ⟨0, 500, false⟩
  | .combo_master_3 => ⟨0, 3, false⟩
  | .combo_master_5 => ⟨0, 5, false⟩
  | .combo_master_10 => ⟨0, 10, false⟩
  | .bomb_creator => ⟨0, 10, false⟩
  | .rocket_master => ⟨0, 10, false⟩
  | .rainbow_collector => ⟨0, 5, false⟩
  | .high_scorer_1k => ⟨0, 1000, false⟩
  | .high_scorer_5k => ⟨0, 5000, false⟩
  | .high_scorer_10k => ⟨0, 10000, false⟩
  | .color_shifter => ⟨0, 3, false⟩
  | .massive_match => ⟨0, 1, false⟩
  | .chain_reaction => ⟨0, 7, false⟩
  | .match_veteran => ⟨0, 100, false⟩
  | .dedicated_player => ⟨0, 50, false⟩

/-- The `stats` record of `AchievementManager`. -/
structure AchStats where
  totalMatches : Nat
  totalGames : Nat
  totalScore : Nat
  bestScore : Nat
  longestCombo : Nat
  specialTilesCreated : Nat
  bombsExploded : Nat
  rocketsLaunched : Nat
  rainbowsActivated : Nat
  perfectSwaps : Nat
  colorSwapsTriggered : Nat
  massiveMatches : Nat
  cascadeChains : Nat
deriving DecidableEq, Repr

/-- All-zero initial stats. -/
def initialStats : AchStats := ⟨0, 0, 0, 0, 0, 0, 0, 0, 0, 0, 0, 0, 0⟩

/-- The state carried by an `AchievementManager` instance: the achievement
map, the `unlockedAchievements : Set<string>` and the stats record. -/
structure AMState where
  achievements : AchId → AchState
  unlockedSet : AchId → Bool
  stats : AchStats

/-- Fresh manager (`new AchievementManager()`). -/
def initialAMState : AMState := ⟨initialAchievement, fun _ => false, initialStats⟩

/-- `AchievementManager.checkAchievement`: skip entries already unlocked (or
in the unlocked set), otherwise clamp the reported value into the progress
field (`progress = Math.min(currentValue, maxProgress || 1)`) and unlock
exactly when the clamped progress reaches the threshold, returning the newly
unlocked id. -/
def checkAchievement (s : AMState) (achievementId : AchId) (currentValue : Nat) :
    AMState × List AchId :=
  let a := s.achievements achievementId
  if a.unlocked ∨ s.unlockedSet achievementId then (s, [])
  else
    let mp := if a.maxProgress = 0 then 1 else a.maxProgress
    let a1 : AchState := { a with progress := min currentValue mp }
    if mp ≤ a1.progress then
      let a2 : AchState := { a1 with unlocked := true }
      ({ s with
          achievements := fun j => if j = achievementId then a2 else s.achievements j,
          unlockedSet := fun j => if j = achievementId then true else s.unlockedSet j },
       [achievementId])
    else
      ({ s with
          achievements := fun j => if j = achievementId then a1 else s.achievements j },
       [])

/-- The event-kind strings accepted by `AchievementManager.updateStats`. -/
inductive EventKind where
  | matchEv | scoreEv | comboEv | bombEv | rocketEv | rainbowEv
  | colorSwapEv | massiveMatchEv | gameEv
deriving DecidableEq, Repr

/-- Run a sequence of `checkAchievement` calls in order, concatenating their
newly-unlocked lists (the call sequence of one `updateStats` invocation; all
checked values are fixed before the first call, as in the source, where the
stats writes all precede the checks of a branch). -/
def runChecks (s : AMState) : List (AchId × Nat) → AMState × List AchId
  | [] => (s, [])
  | c :: rest =>
    let first := checkAchievement s c.1 c.2
    let later := runChecks first.1 rest
    (later.1, first.2 ++ later.2)

/-- `AchievementManager.updateStats`: per event kind, update the relevant
stats then run the relevant `checkAchievement` calls in source order,
concatenating their newly-unlocked lists. -/
def updateStats (s : AMState) (type : EventKind) (value : Nat) :
    AMState × List AchId :=
  match type with
  | .matchEv =>
    let s := { s with stats.totalMatches := s.stats.totalMatches + value }
    runChecks s [(.first_match, 1), (.match_veteran, s.stats.totalMatches)]
  | .scoreEv =>
    let s := { s with stats.totalScore := value }
    let s :=
      if s.stats.bestScore < value then { s with stats.bestScore := value } else s
    runChecks s [(.getting_started, value), (.high_scorer_1k, value),
      (.high_scorer_5k, value), (.high_scorer_10k, value)]
  | .comboEv =>
    let s :=
      if s.stats.longestCombo < value then { s with stats.longestCombo := value } else s
    runChecks s [(.combo_master_3, value), (.combo_master_5, value),
      (.combo_master_10, value), (.chain_reaction, value)]
  | .bombEv =>
    let s := { s with
      stats.bombsExploded := s.stats.bombsExploded + 1,
      stats.specialTilesCreated := s.stats.specialTilesCreated + 1 }
    runChecks s [(.bomb_creator, s.stats.bombsExploded)]
  | .rocketEv =>
    let s := { s with
      stats.rocketsLaunched := s.stats.rocketsLaunched + 1,
      stats.specialTilesCreated := s.stats.specialTilesCreated + 1 }
    runChecks s [(.rocket_master, s.stats.rocketsLaunched)]
  | .rainbowEv =>
    let s := { s with
      stats.rainbowsActivated := s.stats.rainbowsActivated + 1,
      stats.specialTilesCreated := s.stats.specialTilesCreated + 1 }
    runChecks s [(.rainbow_collector, s.stats.rainbowsActivated)]
  | .colorSwapEv =>
    let s := { s with stats.colorSwapsTriggered := s.stats.colorSwapsTriggered + 1 }
    runChecks s [(.color_shifter, s.stats.colorSwapsTriggered)]
  | .massiveMatchEv =>
    let s := { s with stats.massiveMatches := s.stats.massiveMatches + 1 }
    runChecks s [(.massive_match, s.stats.massiveMatches)]
  | .gameEv =>
    let s := { s with stats.totalGames := s.stats.totalGames + 1 }
    runChecks s [(.dedicated_player, s.stats.totalGames)]

/-- A whole session: run a sequence of `updateStats` calls, collecting every
newly-unlocked id reported along the way. -/
def runUpdates (s : AMState) : List (EventKind × Nat) → AMState × List AchId
  | [] => (s, [])
  | ev :: rest =>
    let step := updateStats s ev.1 ev.2
    let later := runUpdates step.1 rest
    (later.1, step.2 ++ later.2)

/-- A plain colored tile with the fields `createRandomTile` would give it. -/
def plainTile (t : TileType) (x y : Int) : GameTile :=
  ⟨t, Option.none, x, y, false, false⟩

/-- 5×1 board holding a single maximal run of five red tiles. -/
def c1cfg : GameCfg := ⟨5, 1, [TileType.red, TileType.blue]⟩

/-- The row of five red tiles for `c1cfg`. -/
def c1grid : Grid :=
  [[plainTile .red 0 0, plainTile .red 1 0, plainTile .red 2 0,
    plainTile .red 3 0, plainTile .red 4 0]]

/-- 1×3 board: a red tile above an empty cell above a blue tile. -/
def c2cfg : GameCfg := ⟨1, 3, [TileType.red, TileType.blue, TileType.green]⟩

/-- The column red / empty / blue (top to bottom) for `c2cfg`. -/
def c2grid : Grid :=
  [[plainTile .red 0 0],
   [⟨TileType.empty, Option.none, 0, 1, false, false⟩],
   [plainTile .blue 0 2]]

/-- The length multiplier exactly as the claim states it: `{3:1, 4:2.5, 5:5,
6:10}` and every length of seven or more mapped to `20`; stored doubled like
`matchMultipliersX2`. -/
def claimLengthMultiplierX2 (n : Nat) : Nat :=
  if n = 3 then 2 else if n = 4 then 5 else if n = 5 then 10
  else if n = 6 then 20 else if 7 ≤ n then 40 else 2

/-- The claim's per-match formula
`floor(basePoints(color) × runLength × lengthMultiplier(runLength) × 1.5^comboDepth)`
with the claim's `7+ ↦ 20` multiplier table, in the same exact dyadic
encoding as `baseMatchPoints`. -/
def claimMatchPoints (comboDepth : Nat) (m : MatchResult) : Nat :=
  (basePointsLookup m.type).getD 10 * m.length * claimLengthMultiplierX2 m.length *
    3 ^ comboDepth / 2 ^ (comboDepth + 1)

/-- A horizontal run of eight red tiles (possible on any board of width 8,
e.g. the default 8×8), with no special creation. -/
def m8red : MatchResult :=
  ⟨(List.range 8).map (fun i => ⟨(i : Int), 0⟩), .red, .horizontal, 8, Option.none⟩

/-- A horizontal 5-run of red that `GameScene.checkForMatches` marked with the
row-rocket it created (`match.special = 'rocket_h'`). -/
def c4rocketHMatch : MatchResult :=
  ⟨(List.range 5).map (fun i => ⟨(i : Int), 0⟩), .red, .horizontal, 5,
    some SpecialTileEffect.ROCKET_H⟩

/-- A vertical 5-run of red marked with the column-rocket it created. -/
def c4rocketVMatch : MatchResult :=
  ⟨(List.range 5).map (fun i => ⟨0, (i : Int)⟩), .red, .vertical, 5,
    some SpecialTileEffect.ROCKET_V⟩

/-- The key under which the creation bonus table stores the rocket bonus. -/
def rocketBonusKey : String := "rocket"

/-- 3×3 board whose red tiles form an L: the whole top row and the whole left
column, intersecting at the origin. -/
def c6cfg : GameCfg := ⟨3, 3, [TileType.red, TileType.blue, TileType.green]⟩

/-- The L-shaped board for `c6cfg`. -/
def c6grid : Grid :=
  [[plainTile .red 0 0, plainTile .red 1 0, plainTile .red 2 0],
   [plainTile .red 0 1, plainTile .blue 1 1, plainTile .green 2 1],
   [plainTile .red 0 2, plainTile .green 1 2, plainTile .blue 2 2]]

/-- 3×1 board with a two-color palette for the shuffle scenario. -/
def c8cfg : GameCfg := ⟨3, 1, [TileType.red, TileType.blue]⟩

/-- A red area-bomb at the origin followed by two ordinary red tiles: after
the identity color shuffle the row is an all-red match, so the repair step
re-rolls all three cells — including the bomb's. -/
def c8grid : Grid :=
  [[⟨TileType.red, some SpecialTileEffect.BOMB, 0, 0, false, false⟩,
    plainTile .red 1 0, plainTile .red 2 0]]

/-- The stream for the `c8grid` scenario: the Fisher-Yates draw `1` keeps the
two collected colors in place, then the repair re-rolls the matched row to
red / blue / red, which is match-free. -/
def c8rng : RNG := [1, 0, 1, 0]

/-- 3×1 board over a single-color palette: every full board is one red run,
so the bounded repair can never succeed. -/
def c9cfg : GameCfg := ⟨3, 1, [TileType.red]⟩

/-- C1.  The claim says `findAllMatches` reports a maximal run exactly once
(a 5-run as one length-5 match, with no overlapping sub-runs).  On the 5×1
all-red board the code instead reports three overlapping matches, of lengths
5, 4 and 3: the visited-set test compares the joined multi-position key of a
match against a set that only ever holds single-position keys, so it never
fires. -/
theorem c1_findAllMatches_reports_overlapping_subruns :
    (findAllMatches c1cfg c1grid).map MatchResult.length = [5, 4, 3] ∧
    (findAllMatches c1cfg c1grid).map (fun m => m.tiles.map GridPosition.x) =
      [[0, 1, 2, 3, 4], [1, 2, 3, 4], [2, 3, 4]] := by decide

/-- C2.  The claim says gravity compacts each column downward preserving the
relative vertical order of its non-empty tiles.  On the column red / empty /
blue (top to bottom) the code instead produces fresh / blue / red — the
surviving tiles come out in reversed order, and the blue tile is moved upward
(from row 2 to row 1) by an animation labelled `fall`. -/
theorem c2_applyGravity_reverses_column_order :
    ((applyGravity c2cfg c2grid [2]).1.grid.map fun r =>
        (r.getD 0 undefinedTile).type) = [.green, .blue, .red] ∧
    ((applyGravity c2cfg c2grid [2]).1.animations.map fun a =>
        (a.kind, a.fromY, a.toY)) =
      [(AnimKind.fall, 0, 2), (AnimKind.fall, 2, 1), (AnimKind.spawn, -1, 0)] := by
  decide

/-- C3 counterexample.  The claim maps every run length of seven or more to
multiplier 20, but the source table only has the key `7`, and the `|| 1`
fallback gives a length-8 match multiplier 1: the code scores the batch 80
where the claim's formula demands 1600. -/
theorem c3_counterexample_length8_multiplier :
    calculateScore [m8red] 0 0 = 80 ∧ claimMatchPoints 0 m8red = 1600 ∧
    calculateScore [m8red] 0 0 ≠ claimMatchPoints 0 m8red := by decide

/-- C4.  The claim says a match that created a rocket gets a flat +300
creation bonus whether row- or column-rocket.  The bonus table stores the
+300 under the key `rocket`, but `match.special` holds `rocket_h` or
`rocket_v`, so the lookup always misses and a rocket-creating 5-match scores
its bare 250 points. -/
theorem c4_rocket_creation_bonus_missing :
    calculateScore [c4rocketHMatch] 0 0 = 250 ∧
    calculateScore [c4rocketVMatch] 0 0 = 250 ∧
    SPECIAL_BONUSES rocketBonusKey = some 300 ∧
    SPECIAL_BONUSES (specialEffectKey SpecialTileEffect.ROCKET_H) = Option.none ∧
    SPECIAL_BONUSES (specialEffectKey SpecialTileEffect.ROCKET_V) = Option.none := by
  decide

/-- C6.  The claim says a horizontal and a vertical match sharing a position
produce a color-rainbow at the shared position.  On the L-shaped board the
detector finds exactly the two runs sharing the origin, yet the resolution
step creates no special tile at all — and `detectSpecialTileCreation` can
never return a rainbow for any match (the source defers L/T detection to a
`findLShapedMatches` that does not exist). -/
theorem c6_no_rainbow_at_intersection :
    (findAllMatches c6cfg c6grid).map (fun m => (m.direction, m.tiles)) =
      [(MatchDirection.horizontal, [⟨0, 0⟩, ⟨1, 0⟩, ⟨2, 0⟩]),
       (MatchDirection.vertical, [⟨0, 0⟩, ⟨0, 1⟩, ⟨0, 2⟩])] ∧
    specialTilesToCreate (findAllMatches c6cfg c6grid) = [] ∧
    ∀ m : MatchResult, ∀ pos : GridPosition,
      detectSpecialTileCreation m ≠ some (pos, SpecialTileEffect.RAINBOW) := by
  refine ⟨by decide, by decide, ?_⟩
  intro m pos
  unfold detectSpecialTileCreation
  split
  · split <;> simp
  · split <;> simp

/-- C8.  The claim says shuffling never touches special tiles.  On `c8grid`
the color permutation leaves the board an all-red row, the repair step
re-rolls every cell of that match, and the area-bomb at the origin comes out
as an ordinary tile with no special kind. -/
theorem c8_shuffle_destroys_special_tile :
    (getTileN c8grid 0 0).special = some SpecialTileEffect.BOMB ∧
    (getTileN (shuffleTileColors c8cfg c8grid c8rng).1 0 0).special = Option.none ∧
    (getTileN (shuffleTileColors c8cfg c8grid c8rng).1 0 0).type ≠ TileType.empty := by
  decide

/-- C9 counterexample.  The claim says every board returned by `initializeGrid`
contains zero matches for every configuration and stream; with a single-color
palette the bounded repair can never succeed and the returned 3×1 board still
matches. -/
theorem c9_counterexample_single_color_palette :
    findAllMatches c9cfg (initializeGrid c9cfg []) ≠ [] := by decide

/-- C10 counterexample.  The claim says a milestone's stored progress never
decreases.  Reporting a combo of 4 sets `combo_master_5`'s progress to 4; a
later combo of 1 overwrites it with `min(1, 5) = 1`. -/
theorem c10_counterexample_progress_decreases :
    ((runUpdates initialAMState [(EventKind.comboEv, 4)]).1.achievements
        AchId.combo_master_5).progress = 4 ∧
    ((runUpdates initialAMState
        [(EventKind.comboEv, 4), (EventKind.comboEv, 1)]).1.achievements
        AchId.combo_master_5).progress = 1 := by
  exact ⟨rfl, rfl⟩

/-- The amended length multiplier: the source table `{3:1, 4:2.5, 5:5, 6:10,
7:20}` with every other length falling back to `1` (the `|| 1` default);
stored doubled like `matchMultipliersX2`. -/
def specLengthMultiplierX2 : Nat → Nat
  | 3 => 2
  | 4 => 5
  | 5 => 10
  | 6 => 20
  | 7 => 40
  | _ => 2

/-- The spec-side per-match formula
`floor(basePoints(color) × runLength × lengthMultiplier(runLength) × 1.5^comboDepth)`
with the amended multiplier table, in the exact dyadic encoding of
`baseMatchPoints`. -/
def specMatchPoints (comboDepth : Nat) (m : MatchResult) : Nat :=
  (basePointsLookup m.type).getD 10 * m.length * specLengthMultiplierX2 m.length *
    3 ^ comboDepth / 2 ^ (comboDepth + 1)

theorem matchMultipliersX2_getD (n : Nat) :
    (matchMultipliersX2 n).getD 2 = specLengthMultiplierX2 n := by
  match n with
  | 0 | 1 | 2 | 3 | 4 | 5 | 6 | 7 => rfl
  | n + 8 => rfl

theorem foldl_add_eq_sum (f : MatchResult → Nat) (ms : List MatchResult)
    (init : Nat) : ms.foldl (fun acc m => acc + f m) init = init + (ms.map f).sum := by
  induction ms generalizing init with
  | nil => simp
  | cons m rest ih => simp [List.foldl_cons, ih]; omega

/-- C3 (amended).  For a batch in which no match carries a special-creation
flag and with no activations counted, `calculateScore` is exactly the sum,
per match, of `floor(basePoints(color) × runLength × lengthMultiplier(runLength)
× 1.5^comboDepth)`, where the multiplier table is `{3:1, 4:2.5, 5:5, 6:10,
7:20}` and any other length falls back to multiplier 1.  (Purity is
definitional: the embedding of `calculateScore` is a function of exactly these
arguments.) -/
theorem c3_calculateScore_base_formula (ms : List MatchResult)
    (comboDepth a : Nat) (hns : ∀ m ∈ ms, m.special = Option.none)
    (ha : a = 0) :
    calculateScore ms comboDepth a = (ms.map (specMatchPoints comboDepth)).sum := by
  subst ha
  unfold calculateScore
  rw [if_neg (by omega), foldl_add_eq_sum, Nat.zero_add]
  apply congrArg List.sum
  apply List.map_congr_left
  intro m hm
  unfold matchScoreOf baseMatchPoints specMatchPoints
  rw [hns m hm, matchMultipliersX2_getD]
  simp

/-- A single 3-match of red, a color with base points 10. -/
def m3red : MatchResult :=
  ⟨[⟨0, 0⟩, ⟨1, 0⟩, ⟨2, 0⟩], .red, .horizontal, 3, Option.none⟩

/-- C3 witness: the formula at the claim's own examples — the 3-match of a
10-point color scores 30 at combo depth 0 and 45 at combo depth 1. -/
theorem c3_calculateScore_base_formula_witness :
    calculateScore [m3red] 0 0 = 30 ∧ calculateScore [m3red] 1 0 = 45 :=
  ⟨(c3_calculateScore_base_formula [m3red] 0 0 (by decide) rfl).trans (by decide),
   (c3_calculateScore_base_formula [m3red] 1 0 (by decide) rfl).trans (by decide)⟩

/-- `tiles[Math.floor(tiles.length / 2)]`: the position the source places a
created special tile at — the run's middle position. -/
def matchMiddle (m : MatchResult) : GridPosition :=
  m.tiles.getD (m.tiles.length / 2) ⟨0, 0⟩

/-- C5.  A run of exactly 4 produces exactly one area-bomb at the run's
middle position (and no rocket); a run of length 5 or more produces a
row-rocket if horizontal, a column-rocket if vertical, at the run's middle
position (and no bomb). -/
theorem c5_special_creation_thresholds (m : MatchResult) :
    (m.length = 4 →
      detectSpecialTileCreation m = some (matchMiddle m, SpecialTileEffect.BOMB)) ∧
    (5 ≤ m.length → m.direction = MatchDirection.horizontal →
      detectSpecialTileCreation m = some (matchMiddle m, SpecialTileEffect.ROCKET_H)) ∧
    (5 ≤ m.length → m.direction = MatchDirection.vertical →
      detectSpecialTileCreation m = some (matchMiddle m, SpecialTileEffect.ROCKET_V)) := by
  refine ⟨?_, ?_, ?_⟩
  · intro h4
    unfold detectSpecialTileCreation matchMiddle
    rw [if_neg (by omega), if_pos h4]
  · intro h5 hdir
    unfold detectSpecialTileCreation matchMiddle
    rw [if_pos h5, hdir]
    simp
  · intro h5 hdir
    unfold detectSpecialTileCreation matchMiddle
    rw [if_pos h5, hdir]
    simp

/-- A horizontal run of exactly four red tiles. -/
def m4red : MatchResult :=
  ⟨[⟨0, 0⟩, ⟨1, 0⟩, ⟨2, 0⟩, ⟨3, 0⟩], .red, .horizontal, 4, Option.none⟩

/-- A horizontal run of exactly five blue tiles. -/
def m5blue : MatchResult :=
  ⟨[⟨0, 0⟩, ⟨1, 0⟩, ⟨2, 0⟩, ⟨3, 0⟩, ⟨4, 0⟩], .blue, .horizontal, 5, Option.none⟩

/-- A vertical run of exactly five green tiles. -/
def m5vgreen : MatchResult :=
  ⟨[⟨0, 0⟩, ⟨0, 1⟩, ⟨0, 2⟩, ⟨0, 3⟩, ⟨0, 4⟩], .green, .vertical, 5, Option.none⟩

/-- C5 witness: the three threshold cases at concrete runs, with the middle
positions evaluated. -/
theorem c5_special_creation_thresholds_witness :
    detectSpecialTileCreation m4red = some (matchMiddle m4red, SpecialTileEffect.BOMB) ∧
    detectSpecialTileCreation m5blue =
      some (matchMiddle m5blue, SpecialTileEffect.ROCKET_H) ∧
    detectSpecialTileCreation m5vgreen =
      some (matchMiddle m5vgreen, SpecialTileEffect.ROCKET_V) ∧
    matchMiddle m4red = ⟨2, 0⟩ ∧ matchMiddle m5blue = ⟨2, 0⟩ :=
  ⟨(c5_special_creation_thresholds m4red).1 rfl,
   (c5_special_creation_thresholds m5blue).2.1 (by decide) rfl,
   (c5_special_creation_thresholds m5vgreen).2.2 (by decide) rfl,
   by decide, by decide⟩

/-- "The bounded repair was exhausted": starting from the given grid and
stream, every one of the given number of `removeInitialMatches` iterations
still found matches (so the loop only stopped because its attempt budget ran
out), and the final board still matches. -/
def repairStuck (cfg : GameCfg) : Nat → Grid → RNG → Prop
  | 0, g, _ => findAllMatches cfg g ≠ []
  | fuel + 1, g, rng =>
    findAllMatches cfg g ≠ [] ∧
      repairStuck cfg fuel (replaceMatches cfg g rng (findAllMatches cfg g)).1
        (replaceMatches cfg g rng (findAllMatches cfg g)).2

theorem removeInitialMatches_clean_or_stuck (cfg : GameCfg) :
    ∀ (fuel : Nat) (g : Grid) (rng : RNG),
      findAllMatches cfg (removeInitialMatches cfg fuel g rng).1 = [] ∨
        repairStuck cfg fuel g rng
  | 0, g, rng => by
    by_cases h : findAllMatches cfg g = []
    · exact Or.inl h
    · exact Or.inr h
  | fuel + 1, g, rng => by
    by_cases h : findAllMatches cfg g = []
    · left
      unfold removeInitialMatches
      rw [if_pos (List.isEmpty_iff.mpr h)]
      exact h
    · rcases removeInitialMatches_clean_or_stuck cfg fuel
          (replaceMatches cfg g rng (findAllMatches cfg g)).1
          (replaceMatches cfg g rng (findAllMatches cfg g)).2 with hc | hs
      · left
        unfold removeInitialMatches
        rw [if_neg (by simpa [List.isEmpty_iff] using h)]
        exact hc
      · exact Or.inr ⟨h, hs⟩

/-- C9 (amended).  Every board returned by `initializeGrid` or by
`shuffleTileColors` contains zero matches, unless the bounded 50-attempt
repair was exhausted with every attempt still finding matches (which a
sufficiently poor palette or stream can force — see the counterexample). -/
theorem c9_boards_clean_unless_repair_stuck (cfg : GameCfg) (g : Grid)
    (rng : RNG) :
    (findAllMatches cfg (initializeGrid cfg rng) = [] ∨
      repairStuck cfg 50 (buildRawGrid cfg rng).1 (buildRawGrid cfg rng).2) ∧
    (findAllMatches cfg (shuffleTileColors cfg g rng).1 = [] ∨
      repairStuck cfg 50 (shuffledBeforeRepair cfg g rng).1
        (shuffledBeforeRepair cfg g rng).2) :=
  ⟨removeInitialMatches_clean_or_stuck cfg 50 (buildRawGrid cfg rng).1
      (buildRawGrid cfg rng).2,
   removeInitialMatches_clean_or_stuck cfg 50 (shuffledBeforeRepair cfg g rng).1
      (shuffledBeforeRepair cfg g rng).2⟩

theorem checkAchievement_unlocked_mono (s : AMState) (i : AchId) (v : Nat)
    (j : AchId) (h : ((s.achievements j).unlocked = true)) :
    (((checkAchievement s i v).1.achievements j).unlocked = true) := by
  simp only [checkAchievement]
  split_ifs <;> by_cases hj : j = i <;> simp_all

theorem checkAchievement_not_rereturned (s : AMState) (i : AchId) (v : Nat)
    (j : AchId) (h : ((s.achievements j).unlocked = true)) :
    j ∉ (checkAchievement s i v).2 := by
  simp only [checkAchievement]
  split_ifs with hg <;> try simp
  all_goals
    intro hmem
    subst hmem
    exact hg (Or.inl h)

theorem runChecks_unlocked_mono (cs : List (AchId × Nat)) (s : AMState)
    (j : AchId) (h : ((s.achievements j).unlocked = true)) :
    (((runChecks s cs).1.achievements j).unlocked = true) ∧
      j ∉ (runChecks s cs).2 := by
  induction cs generalizing s with
  | nil => simpa [runChecks] using h
  | cons c rest ih =>
    have h1 := checkAchievement_unlocked_mono s c.1 c.2 j h
    have h2 := ih (checkAchievement s c.1 c.2).1 h1
    refine ⟨h2.1, ?_⟩
    simp only [runChecks, List.mem_append]
    rintro (hm | hm)
    · exact checkAchievement_not_rereturned s c.1 c.2 j h hm
    · exact h2.2 hm

theorem updateStats_unlocked_mono (s : AMState) (ev : EventKind) (v : Nat)
    (j : AchId) (h : ((s.achievements j).unlocked = true)) :
    (((updateStats s ev v).1.achievements j).unlocked = true) ∧
      j ∉ (updateStats s ev v).2 := by
  cases ev <;>
    first
      | exact runChecks_unlocked_mono _ _ _ h
      | · refine runChecks_unlocked_mono _ _ _ ?_
          split <;> exact h

/-- C10 (amended).  The unlocked flag is a ratchet: along any sequence of
`updateStats` calls, a milestone that is unlocked at the start stays unlocked
and is never reported in any call's newly-unlocked list.  (The progress value
does not share this: see the counterexample — it is overwritten with
`min(latestValue, threshold)` on every relevant call.) -/
theorem c10_unlock_ratchet (evs : List (EventKind × Nat)) (s : AMState)
    (j : AchId) (h : ((s.achievements j).unlocked = true)) :
    (((runUpdates s evs).1.achievements j).unlocked = true) ∧
      j ∉ (runUpdates s evs).2 := by
  induction evs generalizing s with
  | nil => simpa [runUpdates] using h
  | cons ev rest ih =>
    have h1 := updateStats_unlocked_mono s ev.1 ev.2 j h
    have h2 := ih (updateStats s ev.1 ev.2).1 h1.1
    refine ⟨h2.1, ?_⟩
    simp only [runUpdates, List.mem_append]
    rintro (hm | hm)
    · exact h1.2 hm
    · exact h2.2 hm

/-- C10 witness: after one match event `first_match` is unlocked; across a
subsequent session of further events it stays unlocked and never reappears in
a newly-unlocked list. -/
theorem c10_unlock_ratchet_witness :
    ((((runUpdates (updateStats initialAMState EventKind.matchEv 1).1
        [(EventKind.matchEv, 1), (EventKind.scoreEv, 600),
         (EventKind.comboEv, 3)]).1.achievements
        AchId.first_match).unlocked = true)) ∧
      AchId.first_match ∉
        (runUpdates (updateStats initialAMState EventKind.matchEv 1).1
          [(EventKind.matchEv, 1), (EventKind.scoreEv, 600),
           (EventKind.comboEv, 3)]).2 :=
  c10_unlock_ratchet _ _ _ (by decide)

theorem isValidPosition_iff (cfg : GameCfg) (p : GridPosition) :
    isValidPosition cfg p = true ↔
      0 ≤ p.x ∧ p.x < (cfg.GRID_WIDTH : Int) ∧ 0 ≤ p.y ∧
        p.y < (cfg.GRID_HEIGHT : Int) := by
  simp [isValidPosition]

theorem bombOffsets_bounds :
    ∀ d ∈ bombOffsets, -1 ≤ d.1 ∧ d.1 ≤ 1 ∧ -1 ≤ d.2 ∧ d.2 ≤ 1 := by decide

theorem mem_getAllTilesOfType (cfg : GameCfg) (g : Grid) (ty : TileType)
    (hne : ty ≠ TileType.empty) (q : GridPosition) :
    q ∈ getAllTilesOfType cfg g ty ↔
      isValidPosition cfg q = true ∧ (getTileN g q.x.toNat q.y.toNat).type = ty := by
  simp only [getAllTilesOfType, List.mem_flatMap, List.mem_filterMap,
    List.mem_range]
  constructor
  · rintro ⟨y, hy, x, hx, hf⟩
    split at hf
    · rename_i hcond
      rcases Option.some.inj hf with rfl
      refine ⟨(isValidPosition_iff _ _).mpr ?_, ?_⟩
      · refine ⟨Int.ofNat_nonneg x, ?_, Int.ofNat_nonneg y, ?_⟩ <;>
          · show ((_ : Nat) : Int) < _
            exact_mod_cast by omega
      · simpa using hcond.1
    · exact absurd hf (by simp)
  · rintro ⟨hv, hty⟩
    rcases (isValidPosition_iff _ _).mp hv with ⟨h0x, hWx, h0y, hHy⟩
    refine ⟨q.y.toNat, by omega, q.x.toNat, by omega, ?_⟩
    rw [if_pos ⟨by simpa using hty, by simp [hty]; exact hne⟩]
    congr 1
    cases q with
    | mk qx qy =>
      simp only [GridPosition.mk.injEq]
      constructor <;> simp_all

/-- C7.  For a board position holding a special tile: an area-bomb's
activation clears exactly the 3×3 block centered on it clipped to board
bounds; a row-rocket clears exactly its row; a column-rocket exactly its
column; and a rainbow activated by a swap clears exactly the positions
holding the other swapped tile's color plus its own position. -/
theorem c7_special_activation_footprints (cfg : GameCfg) (g : Grid)
    (p q : GridPosition) (t : GameTile) (ht : getTileAt g p = some t) :
    (t.special = some SpecialTileEffect.BOMB →
      (q ∈ activateSpecialTile cfg g p ↔
        isValidPosition cfg q = true ∧
          p.x - 1 ≤ q.x ∧ q.x ≤ p.x + 1 ∧ p.y - 1 ≤ q.y ∧ q.y ≤ p.y + 1)) ∧
    (t.special = some SpecialTileEffect.ROCKET_H →
      (q ∈ activateSpecialTile cfg g p ↔
        0 ≤ q.x ∧ q.x < (cfg.GRID_WIDTH : Int) ∧ q.y = p.y)) ∧
    (t.special = some SpecialTileEffect.ROCKET_V →
      (q ∈ activateSpecialTile cfg g p ↔
        0 ≤ q.y ∧ q.y < (cfg.GRID_HEIGHT : Int) ∧ q.x = p.x)) ∧
    (t.special = some SpecialTileEffect.RAINBOW →
      ∀ otherType : TileType, otherType ≠ TileType.empty →
        (q ∈ rainbowAffectedPositions cfg g p otherType ↔
          (isValidPosition cfg q = true ∧
            (getTileN g q.x.toNat q.y.toNat).type = otherType) ∨ q = p)) := by
  refine ⟨?_, ?_, ?_, ?_⟩
  · intro hs
    simp only [activateSpecialTile, ht, hs]
    constructor
    · intro hq
      rcases List.mem_filterMap.mp hq with ⟨d, hd, hf⟩
      split at hf
      · rename_i hv
        rcases Option.some.inj hf with rfl
        rcases bombOffsets_bounds d hd with ⟨hd1, hd2, hd3, hd4⟩
        exact ⟨hv, by simp; omega, by simp; omega, by simp; omega, by simp; omega⟩
      · exact absurd hf (by simp)
    · rintro ⟨hv, h1, h2, h3, h4⟩
      refine List.mem_filterMap.mpr ⟨(q.x - p.x, q.y - p.y), ?_, ?_⟩
      · have hx : q.x - p.x = -1 ∨ q.x - p.x = 0 ∨ q.x - p.x = 1 := by omega
        have hy : q.y - p.y = -1 ∨ q.y - p.y = 0 ∨ q.y - p.y = 1 := by omega
        rcases hx with hx | hx | hx <;> rcases hy with hy | hy | hy <;>
          simp [bombOffsets, Prod.ext_iff, hx, hy]
      · have hpq : (⟨p.x + (q.x - p.x), p.y + (q.y - p.y)⟩ : GridPosition) = q := by
          cases q
          simp only [GridPosition.mk.injEq]
          omega
        dsimp only
        rw [hpq, if_pos hv]
  · intro hs
    simp only [activateSpecialTile, ht, hs]
    constructor
    · intro hq
      rcases List.mem_map.mp hq with ⟨x, hx, hxe⟩
      subst hxe
      refine ⟨Int.ofNat_nonneg x, ?_, rfl⟩
      show ((x : Nat) : Int) < ((cfg.GRID_WIDTH : Nat) : Int)
      exact_mod_cast List.mem_range.mp hx
    · rintro ⟨h0, hW, hy⟩
      refine List.mem_map.mpr ⟨q.x.toNat, List.mem_range.mpr (by omega), ?_⟩
      cases q with
      | mk qx qy =>
        dsimp only at h0 hW hy ⊢
        simp only [GridPosition.mk.injEq]
        exact ⟨by omega, hy.symm⟩
  · intro hs
    simp only [activateSpecialTile, ht, hs]
    constructor
    · intro hq
      rcases List.mem_map.mp hq with ⟨y, hy, hye⟩
      subst hye
      refine ⟨Int.ofNat_nonneg y, ?_, rfl⟩
      show ((y : Nat) : Int) < ((cfg.GRID_HEIGHT : Nat) : Int)
      exact_mod_cast List.mem_range.mp hy
    · rintro ⟨h0, hH, hx⟩
      refine List.mem_map.mpr ⟨q.y.toNat, List.mem_range.mpr (by omega), ?_⟩
      cases q with
      | mk qx qy =>
        dsimp only at h0 hH hx ⊢
        simp only [GridPosition.mk.injEq]
        exact ⟨hx.symm, by omega⟩
  · intro _ otherType hne
    simp only [rainbowAffectedPositions, List.mem_append, List.mem_singleton,
      mem_getAllTilesOfType cfg g otherType hne q]

/-- 3×3 board carrying one special tile of each activatable kind. -/
def c7cfg : GameCfg := ⟨3, 3, [TileType.red, TileType.blue, TileType.green]⟩

/-- The yellow area-bomb sitting at the origin of `c7grid`. -/
def c7bombTile : GameTile := ⟨TileType.yellow, some SpecialTileEffect.BOMB, 0, 0, false, false⟩

/-- The purple row-rocket sitting at `(2, 1)` of `c7grid`. -/
def c7rocketTile : GameTile := ⟨TileType.purple, some SpecialTileEffect.ROCKET_H, 2, 1, false, false⟩

/-- The orange rainbow sitting at `(1, 2)` of `c7grid`. -/
def c7rainbowTile : GameTile := ⟨TileType.orange, some SpecialTileEffect.RAINBOW, 1, 2, false, false⟩

/-- Board for the C7 witness: a bomb at the origin, a row-rocket at `(2, 1)`,
a rainbow at `(1, 2)`, ordinary tiles elsewhere. -/
def c7grid : Grid :=
  [[c7bombTile, plainTile .red 1 0, plainTile .blue 2 0],
   [plainTile .green 0 1, plainTile .red 1 1, c7rocketTile],
   [plainTile .blue 0 2, c7rainbowTile, plainTile .red 2 2]]

/-- C7 witness: the footprint theorem applied on `c7grid` — the bomb at the
origin reaches its clipped neighbour `(1, 1)` but not `(2, 2)`, the
row-rocket's blast contains the far end of its row, and the rainbow swapped
against red reaches a red tile's position and its own. -/
theorem c7_special_activation_footprints_witness :
    ((⟨1, 1⟩ : GridPosition) ∈ activateSpecialTile c7cfg c7grid ⟨0, 0⟩) ∧
    ((⟨2, 2⟩ : GridPosition) ∉ activateSpecialTile c7cfg c7grid ⟨0, 0⟩) ∧
    ((⟨0, 1⟩ : GridPosition) ∈ activateSpecialTile c7cfg c7grid ⟨2, 1⟩) ∧
    ((⟨2, 2⟩ : GridPosition) ∈
      rainbowAffectedPositions c7cfg c7grid ⟨1, 2⟩ TileType.red) ∧
    ((⟨1, 2⟩ : GridPosition) ∈
      rainbowAffectedPositions c7cfg c7grid ⟨1, 2⟩ TileType.red) := by
  have hb := c7_special_activation_footprints c7cfg c7grid ⟨0, 0⟩ ⟨1, 1⟩
    c7bombTile rfl
  have hb2 := c7_special_activation_footprints c7cfg c7grid ⟨0, 0⟩ ⟨2, 2⟩
    c7bombTile rfl
  have hr := c7_special_activation_footprints c7cfg c7grid ⟨2, 1⟩ ⟨0, 1⟩
    c7rocketTile rfl
  have hw := c7_special_activation_footprints c7cfg c7grid ⟨1, 2⟩ ⟨2, 2⟩
    c7rainbowTile rfl
  have hw2 := c7_special_activation_footprints c7cfg c7grid ⟨1, 2⟩ ⟨1, 2⟩
    c7rainbowTile rfl
  refine ⟨(hb.1 rfl).mpr (by decide), ?_, (hr.2.1 rfl).mpr (by decide),
    (hw.2.2.2 rfl TileType.red (by decide)).mpr (Or.inl (by decide)),
    (hw2.2.2.2 rfl TileType.red (by decide)).mpr (Or.inr rfl)⟩
  intro hmem
  have := (hb2.1 rfl).mp hmem
  revert this
  decide
